import Mathlib

/-!
Verification of the AI LinkedIn job-search application (Python sources)
against its natural-language specification.  The Python code is shallowly
embedded: pure fragments become Lean functions, SQL queries over the
SQLite tables become functions over explicit lists of rows, floating-point
scores become rationals (every score literal in play is exactly
representable), and Python exceptions become `Except` values.  Side
effects that the properties talk about (LLM calls, `time.sleep`, database
writes) are recorded in explicit traces.
-/

/-! ## JSON-ish values returned by the LLM json parser

The LLM strategies (`services/analysis_strategy.py`) parse the model
output into a flat dict and only ever read numeric or string entries from
it; we embed such dicts as association lists of `LVal`. -/

/-- Value stored in a parsed-LLM-output dictionary. -/
inductive LVal where
  | num (q : ℚ)
  | str (s : String)
deriving DecidableEq, Repr

/-- A parsed LLM JSON object: insertion-ordered association list. -/
abbrev LObj := List (String × LVal)

/-- Embeds Python `d.get(key, default)` when the caller expects a number
(`analysis.get('estimated_relevance', 0.0)` and similar). -/
def LObj.getNumD (o : LObj) (k : String) (d : ℚ) : ℚ :=
  match o.lookup k with
  | some (LVal.num q) => q
  | _ => d

/-! ## constants/analysis.py -/

/-- Embeds `AnalysisConstants.DEFAULT_RELEVANCE_THRESHOLD = 0.7`. -/
def AnalysisConstants.DEFAULT_RELEVANCE_THRESHOLD : ℚ := mkRat 7 10

/-- Embeds `AnalysisConstants.DEFAULT_TITLE_MATCH_STRICTNESS = 0.8`. -/
def AnalysisConstants.DEFAULT_TITLE_MATCH_STRICTNESS : ℚ := mkRat 8 10

/-! ## database/models.py job-state constants -/

/-- Embeds `JobStates.STATE_ANALYZED = "analyzed"`. -/
def JobStates.STATE_ANALYZED : String := "analyzed"

/-- Embeds `JobStates.STATE_RELEVANT = "relevant"`. -/
def JobStates.STATE_RELEVANT : String := "relevant"

/-- Embeds `JobStates.STATE_IRRELEVANT = "irrelevant"`. -/
def JobStates.STATE_IRRELEVANT : String := "irrelevant"

/-! ## services/job_analysis_service.py — JobAnalysisService.analyze_job

`analyze_job` consumes the two strategy results; we pass each strategy's
outcome `(score, analysis_dict)` as data and record in the result how
many times the description strategy was invoked and which database calls
`_store_analysis_and_update_state` issued, in order. -/

/-- A job dictionary as handed to `analyze_job` (the keys it reads). -/
structure Job where
  job_id : String
  title : String
  company : String
  description : String
deriving DecidableEq, Repr

/-- The `analysis_prefs` dict, restricted to the two keys `analyze_job`
itself reads; a `none` field means the key is absent so `dict.get`
falls back to the `AnalysisConstants` default. -/
structure AnalysisPrefs where
  title_match_strictness : Option ℚ
  relevance_threshold : Option ℚ
deriving DecidableEq, Repr

/-- The `details` dict built by `_handle_full_analysis` /
`_handle_skipped_analysis`: keys `title_analysis`, `title_relevance`,
`full_analysis` (Python `None` in the skip branch), `relevance_score`,
and `skip_reason` (present only in the skip branch). -/
structure AnalysisDetails where
  title_analysis : LObj
  title_relevance : ℚ
  full_analysis : Option LObj
  relevance_score : ℚ
  skip_reason : Option String
deriving DecidableEq, Repr

/-- A database call issued by `_store_analysis_and_update_state`. -/
inductive DBWrite where
  | addJobAnalysis (job_id : String) (user_id : Nat) (relevance_score : ℚ)
      (details : AnalysisDetails)
  | addJobState (job_id : String) (user_id : Nat) (state : String)
deriving DecidableEq, Repr

/-- The dict returned by `_create_analysis_result`, extended with two
instrumentation fields: `desc_calls` counts invocations of
`description_analyzer.analyze`, and `writes` lists the database calls
made while handling this job, in order. -/
structure AnalyzeResult where
  job_id : String
  title : String
  company : String
  relevance_score : ℚ
  is_relevant : Bool
  analysis_details : AnalysisDetails
  desc_calls : Nat
  writes : List DBWrite
deriving DecidableEq, Repr

/-- Python truthiness of `store_results and self.db_service and user_id`
(both `None` and `0` are falsy for `user_id`). -/
def shouldStore (store_results : Bool) (has_db : Bool) (user_id : Option Nat) : Bool :=
  store_results && has_db &&
    (match user_id with
     | none => false
     | some u => decide (u ≠ 0))

/-- Embeds `_store_analysis_and_update_state` followed by
`_update_job_states`: one `add_job_analysis`, then `add_job_state
analyzed`, then `relevant` or `irrelevant` by comparing the stored score
against the `relevance_threshold` preference. -/
def storeWrites (job_id : String) (user_id : Nat) (score : ℚ)
    (details : AnalysisDetails) (prefs : AnalysisPrefs) : List DBWrite :=
  let threshold := prefs.relevance_threshold.getD AnalysisConstants.DEFAULT_RELEVANCE_THRESHOLD
  [ DBWrite.addJobAnalysis job_id user_id score details,
    DBWrite.addJobState job_id user_id JobStates.STATE_ANALYZED,
    DBWrite.addJobState job_id user_id
      (if score ≥ threshold then JobStates.STATE_RELEVANT else JobStates.STATE_IRRELEVANT) ]

/-- Embeds `JobAnalysisService.analyze_job` (success path):
`titleRes`/`descRes` are the outcomes of `title_analyzer.analyze` and
`description_analyzer.analyze`; `has_db` says whether `self.db_service`
is set.  The title strategy runs first; if its score reaches the
`title_match_strictness` preference the description strategy is invoked
(`_handle_full_analysis`), otherwise it is not
(`_handle_skipped_analysis`). -/
def analyze_job (job : Job) (user_id : Option Nat)
    (analysis_prefs : Option AnalysisPrefs) (store_results : Bool)
    (has_db : Bool) (titleRes : ℚ × LObj) (descRes : ℚ × LObj) : AnalyzeResult :=
  let prefs := analysis_prefs.getD ⟨none, none⟩
  let title_relevance := titleRes.1
  let title_analysis := titleRes.2
  let strictness := prefs.title_match_strictness.getD
    AnalysisConstants.DEFAULT_TITLE_MATCH_STRICTNESS
  if title_relevance ≥ strictness then
    let relevance_score := descRes.1
    let full_analysis := descRes.2
    let details : AnalysisDetails :=
      ⟨title_analysis, title_relevance, some full_analysis, relevance_score, none⟩
    let writes :=
      if shouldStore store_results has_db user_id then
        storeWrites job.job_id (user_id.getD 0) relevance_score details prefs
      else []
    let threshold := prefs.relevance_threshold.getD
      AnalysisConstants.DEFAULT_RELEVANCE_THRESHOLD
    { job_id := job.job_id, title := job.title, company := job.company,
      relevance_score := relevance_score,
      is_relevant := decide (relevance_score ≥ threshold),
      analysis_details := details, desc_calls := 1, writes := writes }
  else
    let details : AnalysisDetails :=
      ⟨title_analysis, title_relevance, none, title_relevance, some "Title not relevant"⟩
    let writes :=
      if shouldStore store_results has_db user_id then
        storeWrites job.job_id (user_id.getD 0) title_relevance details prefs
      else []
    { job_id := job.job_id, title := job.title, company := job.company,
      relevance_score := title_relevance, is_relevant := false,
      analysis_details := details, desc_calls := 0, writes := writes }

/-! ## experiments/title_strategy_evaluator.py -/

/-- Embeds `TitleStrategyEvaluator.RELEVANCE_LEVELS` (a Python dict,
iterated in insertion order): level name with its `(min, max)` range. -/
def RELEVANCE_LEVELS : List (String × ℚ × ℚ) :=
  [ ("irrelevant", 0, mkRat 2 10),
    ("low", mkRat 2 10, mkRat 4 10),
    ("medium", mkRat 4 10, mkRat 7 10),
    ("high", mkRat 7 10, mkRat 9 10),
    ("very_high", mkRat 9 10, 1) ]

/-- Embeds `TitleStrategyEvaluator.LEVEL_ORDER`. -/
def LEVEL_ORDER : List String :=
  ["irrelevant", "low", "medium", "high", "very_high"]

/-- Embeds `TitleStrategyEvaluator._get_relevance_level`: first level
whose half-open range contains the score, then the `score == 1.0` edge
case, then the `"irrelevant"` fallback. -/
def get_relevance_level (score : ℚ) : String :=
  match RELEVANCE_LEVELS.find? (fun lv => decide (lv.2.1 ≤ score ∧ score < lv.2.2)) with
  | some lv => lv.1
  | none => if score == 1 then "very_high" else "irrelevant"

/-- Embeds `TitleStrategyEvaluator._calculate_level_distance`: absolute
difference of the indices in `LEVEL_ORDER`; if either level is unknown
(Python `list.index` raises), the maximum distance `len - 1` is
returned. -/
def calculate_level_distance (expected_level predicted_level : String) : Nat :=
  match LEVEL_ORDER.findIdx? (fun x => x == expected_level),
        LEVEL_ORDER.findIdx? (fun x => x == predicted_level) with
  | some i, some j => ((i : ℤ) - (j : ℤ)).natAbs
  | _, _ => LEVEL_ORDER.length - 1

/-! ## utils/security.py — password generation and validation

Characters are ASCII throughout (`string.ascii_letters + string.digits +
string.punctuation`), on which Python's `str.islower` / `isupper` /
`isdigit` agree with `Char.isLower` / `Char.isUpper` / `Char.isDigit`. -/

/-- Embeds Python `string.punctuation`. -/
def punctuationChars : List Char :=
  ['!', '\x22', '#', '$', '%', '&', '\x27', '(', ')', '*', '+', ',',
   '-', '.', '/', ':', ';', '<', '=', '>', '?', '@', '[', '\\', ']',
   '^', '_', '\x60', '\x7b', '|', '\x7d', '~']

/-- Embeds `string.ascii_lowercase`. -/
def asciiLowercase : List Char := "abcdefghijklmnopqrstuvwxyz".toList

/-- Embeds `string.ascii_uppercase`. -/
def asciiUppercase : List Char := "ABCDEFGHIJKLMNOPQRSTUVWXYZ".toList

/-- Embeds `string.digits`. -/
def asciiDigits : List Char := "0123456789".toList

/-- The alphabet of `generate_password`:
`string.ascii_letters + string.digits + string.punctuation`. -/
def passwordAlphabet : List Char :=
  asciiLowercase ++ asciiUppercase ++ asciiDigits ++ punctuationChars

/-- Characterizes the possible outputs of `generate_password(length)`:
the rejection loop draws each character uniformly from
`passwordAlphabet` and accepts exactly the candidates with at least one
lowercase letter, at least one uppercase letter, and at least three
digits.  Any such string is a possible output and every output is such
a string. -/
def canGeneratePassword (length : Nat) (p : String) : Bool :=
  p.length == length &&
  p.toList.all (fun c => passwordAlphabet.contains c) &&
  p.toList.any Char.isLower &&
  p.toList.any Char.isUpper &&
  decide (p.toList.countP (fun c => Char.isDigit c) ≥ 3)

/-- Modelled from the spec: `constants/security.py`
(`SecurityConstants.PASSWORD_MIN_LENGTH`) is imported by
`utils/security.py` but is not among the provided sources; the spec
states the minimum password length is 8. -/
def SecurityConstants.PASSWORD_MIN_LENGTH : Nat := 8

/-- Embeds `validate_password`: the five rules in source order, returning
the first failing rule's message, or `(True, None)`. -/
def validate_password (p : String) : Bool × Option String :=
  if p.length < SecurityConstants.PASSWORD_MIN_LENGTH then
    (false, some "Password must be at least 8 characters long")
  else if !(p.toList.any Char.isUpper) then
    (false, some "Password must contain at least one uppercase letter")
  else if !(p.toList.any Char.isLower) then
    (false, some "Password must contain at least one lowercase letter")
  else if !(p.toList.any Char.isDigit) then
    (false, some "Password must contain at least one digit")
  else if !(p.toList.any (fun c => punctuationChars.contains c)) then
    (false, some "Password must contain at least one special character")
  else
    (true, none)

/-! ## services/analysis_strategy.py — TitleAnalysisStrategy.analyze

The retry loop is embedded over the list of attempt indices
`range max_retries`.  `provider n` is the outcome of the `n`-th
`llm_provider.generate_completion` call and `parser` the outcome of
`json_parser.parse` (which raises `ValueError` on failure, embedded as
`LLMErr.valueErr`; every other exception is `LLMErr.exc`).  `jitter n`
is the value of `random.random()` drawn before the `n`-th sleep, a
rational in `[0, 1)`.  The trace records how many provider calls were
made and the durations passed to `time.sleep`, in order. -/

/-- A Python exception inside the retry loop: `valueErr` is
`ValueError` (JSON-parse failure), `exc` any other exception. -/
inductive LLMErr where
  | valueErr (msg : String)
  | exc (msg : String)
deriving DecidableEq, Repr

/-- Observable side effects of one `analyze` call: number of
`generate_completion` invocations and the `time.sleep` durations. -/
structure RetryTrace where
  calls : Nat
  sleeps : List ℚ
deriving DecidableEq, Repr

/-- Embeds `self.max_retries = 3`. -/
def TitleAnalysisStrategy.max_retries : Nat := 3

/-- Embeds `self.retry_delay = 2`. -/
def TitleAnalysisStrategy.retry_delay : ℚ := 2

/-- The zero-score fallback dict built after the final failed attempt:
`{"estimated_relevance": 0.0, "reasoning": "API error", "error": str(e)}`. -/
def titleFallback (msg : String) : LObj :=
  [ ("estimated_relevance", LVal.num 0),
    ("reasoning", LVal.str "API error"),
    ("error", LVal.str msg) ]

/-- Embeds the body of the `for attempt in range(self.max_retries)` loop
of `TitleAnalysisStrategy.analyze`.  On success, returns the score
`analysis.get('estimated_relevance', 0.0)` with the parsed dict; a
`ValueError` re-raises; any other exception sleeps
`backoff + backoff * 0.2 * random.random()` with
`backoff = retry_delay * 2 ** attempt` and retries, except on the last
attempt, which returns the fallback pair.  The `[]` case is unreachable
for `max_retries ≥ 1` (Python would fall off the loop returning `None`). -/
def titleAttemptLoop (provider : Nat → Except LLMErr String)
    (parser : String → Except LLMErr LObj) (jitter : Nat → ℚ) :
    List Nat → RetryTrace → (Except LLMErr (ℚ × LObj)) × RetryTrace
  | [], tr => (Except.error (LLMErr.exc "loop exhausted"), tr)
  | attempt :: rest, tr =>
    let tr1 : RetryTrace := { tr with calls := tr.calls + 1 }
    let outcome : Except LLMErr LObj :=
      match provider attempt with
      | Except.ok content => parser content
      | Except.error e => Except.error e
    match outcome with
    | Except.ok analysis =>
        (Except.ok (LObj.getNumD analysis "estimated_relevance" 0, analysis), tr1)
    | Except.error (LLMErr.valueErr m) =>
        (Except.error (LLMErr.valueErr m), tr1)
    | Except.error (LLMErr.exc m) =>
        if attempt < TitleAnalysisStrategy.max_retries - 1 then
          let backoff := TitleAnalysisStrategy.retry_delay * 2 ^ attempt
          titleAttemptLoop provider parser jitter rest
            { tr1 with sleeps := tr1.sleeps ++ [backoff + backoff * mkRat 2 10 * jitter attempt] }
        else
          (Except.ok (0, titleFallback m), tr1)

/-- Embeds `TitleAnalysisStrategy.analyze` (after prompt construction,
which does not affect the control flow verified here). -/
def TitleAnalysisStrategy.analyze (provider : Nat → Except LLMErr String)
    (parser : String → Except LLMErr LObj) (jitter : Nat → ℚ) :
    (Except LLMErr (ℚ × LObj)) × RetryTrace :=
  titleAttemptLoop provider parser jitter
    (List.range TitleAnalysisStrategy.max_retries) ⟨0, []⟩

/-! ## services/database_service.py — job states, listings, deletion

The SQLite tables become lists of rows; `state_timestamp` values become
naturals.  `ORDER BY state_timestamp DESC` is embedded as a stable
insertion sort with the reversed order (SQLite leaves the relative order
of equal keys unspecified; the stable sort is one concrete refinement of
that). -/

/-- A row of the `job_states` table (the columns these queries touch). -/
structure StateRow where
  job_id : String
  user_id : Nat
  state : String
  ts : Nat
deriving DecidableEq, Repr

/-- A row of the `job_analysis` table (the columns deletion touches). -/
structure AnalysisRow where
  job_id : String
  user_id : Nat
  relevance_score : ℚ
deriving DecidableEq, Repr

/-- A row of the `job_listings` table (key column only). -/
structure Listing where
  job_id : String
deriving DecidableEq, Repr

/-- Rows of `job_states` for one `(job_id, user_id)` pair, in table
(insertion) order. -/
def rowsForPair (states : List StateRow) (job : String) (user : Nat) : List StateRow :=
  states.filter (fun r => r.job_id == job && r.user_id == user)

/-- Embeds the correlated subquery
`SELECT MAX(state_timestamp) FROM job_states WHERE job_id = s.job_id AND
user_id = s.user_id`; the fold over `0` agrees with SQL `MAX` whenever
the pair has at least one row (always the case at its use site, where
the outer row itself belongs to the pair). -/
def maxTsForPair (states : List StateRow) (job : String) (user : Nat) : Nat :=
  ((rowsForPair states job user).map (fun r => r.ts)).foldl Nat.max 0

/-- Embeds `ORDER BY state_timestamp DESC` as a stable sort. -/
def orderByTsDesc (rows : List StateRow) : List StateRow :=
  rows.insertionSort (fun a b => b.ts ≤ a.ts)

/-- Embeds `DatabaseService.get_current_job_state`:
`SELECT * ... WHERE job_id = ? AND user_id = ? ORDER BY state_timestamp
DESC LIMIT 1`. -/
def get_current_job_state (states : List StateRow) (job : String) (user : Nat) :
    Option StateRow :=
  (orderByTsDesc (rowsForPair states job user)).head?

/-- Embeds `DatabaseService.get_jobs_by_state`: join of `job_listings`
with `job_states`, keeping rows of the requested user and state whose
timestamp equals the pair's maximum, ordered by timestamp descending,
then `LIMIT ? OFFSET ?` (the service defaults are `limit = 50`,
`offset = 0`).  Listing columns other than `job_id` are dropped. -/
def get_jobs_by_state (listings : List Listing) (states : List StateRow)
    (user : Nat) (state : String) (limit : Nat) (offset : Nat) : List String :=
  let matched := states.filter (fun r =>
    listings.contains ⟨r.job_id⟩ && r.user_id == user && r.state == state &&
    r.ts == maxTsForPair states r.job_id user)
  (((orderByTsDesc matched).drop offset).take limit).map (fun r => r.job_id)

/-- The three tables `delete_job` touches. -/
structure DB where
  listings : List Listing
  states : List StateRow
  analyses : List AnalysisRow
deriving DecidableEq, Repr

/-- Embeds the `UNION` reference check of `delete_job`: the distinct
`user_id`s still referencing `job_id` across the (already user-filtered)
state and analysis tables. -/
def refUsers (states : List StateRow) (analyses : List AnalysisRow)
    (job : String) : List Nat :=
  (((states.filter (fun r => r.job_id == job)).map (fun r => r.user_id)) ++
    ((analyses.filter (fun r => r.job_id == job)).map (fun r => r.user_id))).dedup

/-- Embeds `DatabaseService.delete_job`.  With a `user_id`: delete that
user's state and analysis rows for the job, then delete the listing row
only if no user references the job any more, and return `True`.  Without
a `user_id`: delete all state, analysis and listing rows for the job and
return whether a listing row was actually deleted (`rowcount > 0`). -/
def delete_job (db : DB) (job : String) (user_id : Option Nat) : DB × Bool :=
  match user_id with
  | some user =>
      let states1 := db.states.filter (fun r => !(r.job_id == job && r.user_id == user))
      let analyses1 := db.analyses.filter (fun r => !(r.job_id == job && r.user_id == user))
      let ref_count := (refUsers states1 analyses1 job).length
      if ref_count == 0 then
        (⟨db.listings.filter (fun l => !(l.job_id == job)), states1, analyses1⟩, true)
      else
        (⟨db.listings, states1, analyses1⟩, true)
  | none =>
      let states1 := db.states.filter (fun r => !(r.job_id == job))
      let analyses1 := db.analyses.filter (fun r => !(r.job_id == job))
      let listings1 := db.listings.filter (fun l => !(l.job_id == job))
      (⟨listings1, states1, analyses1⟩,
        decide (0 < (db.listings.filter (fun l => l.job_id == job)).length))

/-! ## services/preference_service.py — defaults and get_all_preferences

Python dicts keep insertion order; we embed them as association lists and
mirror the in-place-update / append-at-end behaviour of dict item
assignment. -/

/-- A JSON-serializable preference value (the shapes occurring in the
default table and its persisted rows). -/
inductive PVal where
  | str (s : String)
  | num (q : ℚ)
  | bool (b : Bool)
  | null
  | strList (l : List String)
  | strDict (l : List (String × String))
deriving DecidableEq, Repr

/-- Python `d[k] = v` on an insertion-ordered dict: overwrite in place if
the key exists, else append at the end. -/
def dictSet (d : List (String × α)) (k : String) (v : α) : List (String × α) :=
  if (d.lookup k).isSome then
    d.map (fun p => if p.1 == k then (k, v) else p)
  else
    d ++ [(k, v)]

/-- Embeds `Config.DEFAULT_SEARCH_TERMS`. -/
def Config.DEFAULT_SEARCH_TERMS : List String :=
  ["AI Engineer", "Machine Learning Engineer", "Data Scientist"]

/-- Embeds `Config.DEFAULT_LOCATIONS`. -/
def Config.DEFAULT_LOCATIONS : List String :=
  ["New York, NY", "San Francisco, CA"]

/-- Embeds `Config.DEFAULT_SCHEDULE_TYPE`. -/
def Config.DEFAULT_SCHEDULE_TYPE : String := "daily"

/-- Embeds `Config.DEFAULT_EXECUTION_TIME`. -/
def Config.DEFAULT_EXECUTION_TIME : String := "08:00"

/-- Embeds `Config.RELEVANCE_THRESHOLD` with its hard-coded fallback
`float(os.getenv('RELEVANCE_THRESHOLD', 0.7))`, i.e. the value when the
environment variable is unset. -/
def Config.RELEVANCE_THRESHOLD : ℚ := mkRat 7 10

/-- Embeds `PreferenceService.DEFAULT_PREFERENCES`, category by category
in source order. -/
def DEFAULT_PREFERENCES : List (String × List (String × PVal)) :=
  [ ("search",
      [ ("job_titles", PVal.strList Config.DEFAULT_SEARCH_TERMS),
        ("locations", PVal.strList Config.DEFAULT_LOCATIONS),
        ("experience_levels", PVal.strList ["Entry level", "Associate", "Mid-Senior level"]),
        ("remote_preference", PVal.bool true) ]),
    ("analysis",
      [ ("relevant_title_patterns",
          PVal.strList ["AI", "Machine Learning", "ML", "Data Scientist", "NLP", "Computer Vision"]),
        ("required_skills", PVal.strList ["Python", "Machine Learning"]),
        ("preferred_skills", PVal.strList ["TensorFlow", "PyTorch", "NLP", "Computer Vision"]),
        ("relevance_threshold", PVal.num Config.RELEVANCE_THRESHOLD),
        ("title_match_strictness", PVal.num (mkRat 8 10)) ]),
    ("scheduling",
      [ ("schedule_type", PVal.str Config.DEFAULT_SCHEDULE_TYPE),
        ("execution_time", PVal.str Config.DEFAULT_EXECUTION_TIME),
        ("notifications_enabled", PVal.bool true) ]),
    ("ui",
      [ ("dashboard_layout", PVal.str "default"),
        ("default_filters", PVal.strDict [("state", "relevant")]),
        ("mobile_view", PVal.str "compact") ]),
    ("technical",
      [ ("chrome_executable_path", PVal.null),
        ("chrome_binary_location", PVal.null) ]) ]

/-- A persisted `user_preferences` row of one user, already
deserialized: `(category, name, value)`. -/
abbrev PrefRow := String × String × PVal

/-- Embeds `PreferenceService.get_all_preferences` for a given user:
`rows` are the user's persisted preference rows in query order.  First
the rows are folded into a category-to-dict mapping, then every missing
category/name from `DEFAULT_PREFERENCES` is filled in. -/
def get_all_preferences (rows : List PrefRow) : List (String × List (String × PVal)) :=
  let preferences := rows.foldl
    (fun acc r =>
      let catMap := (acc.lookup r.1).getD []
      dictSet acc r.1 (dictSet catMap r.2.1 r.2.2))
    []
  DEFAULT_PREFERENCES.foldl
    (fun acc cd =>
      let catMap := (acc.lookup cd.1).getD []
      let filled := cd.2.foldl
        (fun m nv => if (m.lookup nv.1).isSome then m else m ++ [nv])
        catMap
      dictSet acc cd.1 filled)
    preferences

/-- Looks up one preference value in a category-organized preference
mapping (the shape returned by `get_all_preferences`). -/
def prefLookup (prefs : List (String × List (String × PVal)))
    (category name : String) : Option PVal :=
  ((prefs.lookup category).getD []).lookup name

/-! ## Theorems -/

/-- C9: the evaluation harness buckets 0.0 and 0.19 to `irrelevant`,
0.2 to `low`, 0.69 to `medium`, 0.7 and 0.89 to `high`, 0.9 and 1.0 to
`very_high` (1.0 through the dedicated edge case), and the level
distance between `irrelevant` and `very_high` is 4. -/
theorem relevance_bucketing_matches_spec :
    get_relevance_level 0 = "irrelevant" ∧
    get_relevance_level (mkRat 19 100) = "irrelevant" ∧
    get_relevance_level (mkRat 2 10) = "low" ∧
    get_relevance_level (mkRat 69 100) = "medium" ∧
    get_relevance_level (mkRat 7 10) = "high" ∧
    get_relevance_level (mkRat 89 100) = "high" ∧
    get_relevance_level (mkRat 9 10) = "very_high" ∧
    get_relevance_level 1 = "very_high" ∧
    calculate_level_distance "irrelevant" "very_high" = 4 := by
  decide

/-- C10: with two state rows for the same (job, user) pair carrying
different states but the same maximal timestamp, `get_jobs_by_state`
returns the job under both state values (every row tied for the
maximum passes the MAX-timestamp subquery), while
`get_current_job_state` returns exactly one of the tied rows. -/
theorem equal_timestamp_tie_breaks_latest_state_queries :
    "j" ∈ get_jobs_by_state [⟨"j"⟩]
      [⟨"j", 1, "viewed", 5⟩, ⟨"j", 1, "saved", 5⟩] 1 "viewed" 50 0 ∧
    "j" ∈ get_jobs_by_state [⟨"j"⟩]
      [⟨"j", 1, "viewed", 5⟩, ⟨"j", 1, "saved", 5⟩] 1 "saved" 50 0 ∧
    (get_current_job_state [⟨"j", 1, "viewed", 5⟩, ⟨"j", 1, "saved", 5⟩] "j" 1 =
        some ⟨"j", 1, "viewed", 5⟩ ∨
      get_current_job_state [⟨"j", 1, "viewed", 5⟩, ⟨"j", 1, "saved", 5⟩] "j" 1 =
        some ⟨"j", 1, "saved", 5⟩) := by
  decide

/-- C6: for a user with zero persisted preference rows,
`get_all_preferences` returns exactly the static default table — every
(category, key) pair with its documented default value and nothing
else; in particular the five spotlighted defaults have their literal
values. -/
theorem get_all_preferences_empty_gives_defaults :
    get_all_preferences [] = DEFAULT_PREFERENCES ∧
    prefLookup (get_all_preferences []) "search" "job_titles" =
      some (PVal.strList ["AI Engineer", "Machine Learning Engineer", "Data Scientist"]) ∧
    prefLookup (get_all_preferences []) "analysis" "relevance_threshold" =
      some (PVal.num (mkRat 7 10)) ∧
    prefLookup (get_all_preferences []) "analysis" "title_match_strictness" =
      some (PVal.num (mkRat 8 10)) ∧
    prefLookup (get_all_preferences []) "scheduling" "execution_time" =
      some (PVal.str "08:00") ∧
    prefLookup (get_all_preferences []) "ui" "default_filters" =
      some (PVal.strDict [("state", "relevant")]) := by
  decide

/-- C8 counterexample: `"Aa1bc2de3fgh"` is a possible output of
`generate_password` (length 12, all characters in the alphabet, one
lowercase, one uppercase, three digits) yet `validate_password` rejects
it, because the generator never demands a punctuation character while
the validator does. -/
theorem generated_password_rejected_by_validator :
    canGeneratePassword 12 "Aa1bc2de3fgh" = true ∧
    validate_password "Aa1bc2de3fgh" ≠ (true, none) := by
  decide

/-- C8 (amended): every string the default-length password generator
can output passes the validator's length, uppercase, lowercase and
digit rules, so `validate_password` accepts it if and only if it also
contains a punctuation character; otherwise the special-character rule
fails. -/
theorem generated_password_validates_iff_special (p : String)
    (h : canGeneratePassword 12 p = true) :
    validate_password p =
      (if p.toList.any (fun c => punctuationChars.contains c) then (true, none)
       else (false, some "Password must contain at least one special character")) := by
  simp only [canGeneratePassword, Bool.and_eq_true, beq_iff_eq, decide_eq_true_eq] at h
  obtain ⟨⟨⟨⟨hlen, _⟩, hlow⟩, hup⟩, hdig⟩ := h
  have hanydig : p.toList.any Char.isDigit = true := by
    rw [List.any_eq_true]
    have hpos : 0 < p.toList.countP (fun c => Char.isDigit c) := by omega
    obtain ⟨c, hc, hcd⟩ := List.countP_pos_iff.mp hpos
    exact ⟨c, hc, hcd⟩
  rw [validate_password]
  rw [if_neg (by rw [hlen]; decide)]
  rw [if_neg (by rw [hup]; decide)]
  rw [if_neg (by rw [hlow]; decide)]
  rw [if_neg (by rw [hanydig]; decide)]
  by_cases hsp : p.toList.any (fun c => punctuationChars.contains c) = true
  · rw [if_neg (by rw [hsp]; decide), if_pos hsp]
  · rw [if_pos (by rw [Bool.eq_false_iff.mpr hsp]; decide), if_neg hsp]

/-- C8 (amended) witness: the generatable password `"Abc123!defgh"`
contains a punctuation character and is accepted by the validator. -/
theorem generated_password_validates_iff_special_witness :
    validate_password "Abc123!defgh" = (true, none) := by
  have h := generated_password_validates_iff_special "Abc123!defgh" (by decide)
  simpa using h

/-- C1: two-stage gating of `analyze_job` — when the title score reaches
the `title_match_strictness` preference (default 0.8) the description
strategy is invoked exactly once and the returned `relevance_score` is
the description score with `is_relevant` deciding score ≥
`relevance_threshold` (default 0.7); when the title score is strictly
below the strictness the description strategy is never invoked, the
returned score is the title score, `is_relevant` is false, and the
details carry the skip reason. -/
theorem analyze_job_two_stage_gating (job : Job) (user_id : Option Nat)
    (analysis_prefs : Option AnalysisPrefs) (store_results has_db : Bool)
    (titleRes descRes : ℚ × LObj) :
    (titleRes.1 ≥ (analysis_prefs.getD ⟨none, none⟩).title_match_strictness.getD
        AnalysisConstants.DEFAULT_TITLE_MATCH_STRICTNESS →
      (analyze_job job user_id analysis_prefs store_results has_db titleRes descRes).desc_calls = 1 ∧
      (analyze_job job user_id analysis_prefs store_results has_db titleRes descRes).relevance_score = descRes.1 ∧
      (analyze_job job user_id analysis_prefs store_results has_db titleRes descRes).is_relevant =
        decide (descRes.1 ≥ (analysis_prefs.getD ⟨none, none⟩).relevance_threshold.getD
          AnalysisConstants.DEFAULT_RELEVANCE_THRESHOLD)) ∧
    (titleRes.1 < (analysis_prefs.getD ⟨none, none⟩).title_match_strictness.getD
        AnalysisConstants.DEFAULT_TITLE_MATCH_STRICTNESS →
      (analyze_job job user_id analysis_prefs store_results has_db titleRes descRes).desc_calls = 0 ∧
      (analyze_job job user_id analysis_prefs store_results has_db titleRes descRes).relevance_score = titleRes.1 ∧
      (analyze_job job user_id analysis_prefs store_results has_db titleRes descRes).is_relevant = false ∧
      (analyze_job job user_id analysis_prefs store_results has_db titleRes descRes).analysis_details.skip_reason =
        some "Title not relevant") := by
  constructor
  · intro h
    simp [analyze_job, if_pos h]
  · intro h
    simp [analyze_job, if_neg (not_le.mpr h)]

/-- C1 witness: the spec's two examples at the default preferences —
title 0.9 with description 0.3 invokes the description strategy and
yields score 0.3 with `is_relevant = false`; title 0.5 skips it,
returns 0.5 and carries the skip reason. -/
theorem analyze_job_two_stage_gating_witness :
    (analyze_job ⟨"job-1", "ML Engineer", "Acme", "desc"⟩ none none true true
        (mkRat 9 10, []) (mkRat 3 10, [])).desc_calls = 1 ∧
    (analyze_job ⟨"job-1", "ML Engineer", "Acme", "desc"⟩ none none true true
        (mkRat 9 10, []) (mkRat 3 10, [])).relevance_score = mkRat 3 10 ∧
    (analyze_job ⟨"job-1", "ML Engineer", "Acme", "desc"⟩ none none true true
        (mkRat 9 10, []) (mkRat 3 10, [])).is_relevant = false ∧
    (analyze_job ⟨"job-1", "ML Engineer", "Acme", "desc"⟩ none none true true
        (mkRat 5 10, []) (mkRat 3 10, [])).desc_calls = 0 ∧
    (analyze_job ⟨"job-1", "ML Engineer", "Acme", "desc"⟩ none none true true
        (mkRat 5 10, []) (mkRat 3 10, [])).relevance_score = mkRat 5 10 ∧
    (analyze_job ⟨"job-1", "ML Engineer", "Acme", "desc"⟩ none none true true
        (mkRat 5 10, []) (mkRat 3 10, [])).analysis_details.skip_reason =
      some "Title not relevant" := by
  have h1 := (analyze_job_two_stage_gating ⟨"job-1", "ML Engineer", "Acme", "desc"⟩
    none none true true (mkRat 9 10, []) (mkRat 3 10, [])).1 (by decide)
  have h2 := (analyze_job_two_stage_gating ⟨"job-1", "ML Engineer", "Acme", "desc"⟩
    none none true true (mkRat 5 10, []) (mkRat 3 10, [])).2 (by decide)
  refine ⟨h1.1, h1.2.1, ?_, h2.1, h2.2.1, h2.2.2.2⟩
  rw [h1.2.2]
  decide

/-- C7: when analysis is skipped (title score below the strictness) but
persisted (db service, user id, store_results all set), the result has
`is_relevant = false`, yet the state appended after `analyzed` is
`relevant` whenever the title score reaches the relevance threshold and
`irrelevant` only when it is below it — the skip branch stores the title
score and classifies it against the same threshold. -/
theorem skipped_analysis_persists_title_score_state (job : Job) (u : Nat)
    (prefs : AnalysisPrefs) (titleRes descRes : ℚ × LObj)
    (hu : u ≠ 0)
    (hskip : titleRes.1 < prefs.title_match_strictness.getD
      AnalysisConstants.DEFAULT_TITLE_MATCH_STRICTNESS) :
    (analyze_job job (some u) (some prefs) true true titleRes descRes).is_relevant = false ∧
    (analyze_job job (some u) (some prefs) true true titleRes descRes).writes =
      [ DBWrite.addJobAnalysis job.job_id u titleRes.1
          ⟨titleRes.2, titleRes.1, none, titleRes.1, some "Title not relevant"⟩,
        DBWrite.addJobState job.job_id u JobStates.STATE_ANALYZED,
        DBWrite.addJobState job.job_id u
          (if titleRes.1 ≥ prefs.relevance_threshold.getD
              AnalysisConstants.DEFAULT_RELEVANCE_THRESHOLD
           then JobStates.STATE_RELEVANT else JobStates.STATE_IRRELEVANT) ] := by
  simp only [analyze_job, Option.getD_some, if_neg (not_le.mpr hskip)]
  have hstore : shouldStore true true (some u) = true := by
    simp [shouldStore, hu]
  simp [hstore, storeWrites]

/-- C7 witness: a title score of 0.75 with default preferences (0.7 ≤
0.75 < 0.8) is skipped and reported not relevant, yet the persisted
state sequence ends in `relevant`. -/
theorem skipped_analysis_persists_title_score_state_witness :
    (analyze_job ⟨"job-2", "Data Engineer", "Acme", "desc"⟩ (some 1)
        (some ⟨none, none⟩) true true (mkRat 75 100, []) (mkRat 3 10, [])).is_relevant = false ∧
    (analyze_job ⟨"job-2", "Data Engineer", "Acme", "desc"⟩ (some 1)
        (some ⟨none, none⟩) true true (mkRat 75 100, []) (mkRat 3 10, [])).writes =
      [ DBWrite.addJobAnalysis "job-2" 1 (mkRat 75 100)
          ⟨[], mkRat 75 100, none, mkRat 75 100, some "Title not relevant"⟩,
        DBWrite.addJobState "job-2" 1 "analyzed",
        DBWrite.addJobState "job-2" 1 "relevant" ] := by
  have h := skipped_analysis_persists_title_score_state
    ⟨"job-2", "Data Engineer", "Acme", "desc"⟩ 1 ⟨none, none⟩
    (mkRat 75 100, []) (mkRat 3 10, []) (by decide) (by decide)
  refine ⟨h.1, ?_⟩
  rw [h.2]
  decide

/-- C5: when the first LLM completion succeeds but JSON parsing raises
(`ValueError`), `TitleAnalysisStrategy.analyze` propagates the parse
error immediately — exactly one provider call, no sleep, no fallback. -/
theorem title_parse_error_not_retried (provider : Nat → Except LLMErr String)
    (parser : String → Except LLMErr LObj) (jitter : Nat → ℚ) (c : String) (m : String)
    (hp : provider 0 = Except.ok c)
    (hc : parser c = Except.error (LLMErr.valueErr m)) :
    TitleAnalysisStrategy.analyze provider parser jitter =
      (Except.error (LLMErr.valueErr m), ⟨1, []⟩) := by
  have hr : List.range TitleAnalysisStrategy.max_retries = [0, 1, 2] := by decide
  rw [TitleAnalysisStrategy.analyze, hr]
  simp [titleAttemptLoop, hp, hc]

/-- C5 witness: a provider returning unparsable text makes the strategy
raise after one call with an empty sleep trace. -/
theorem title_parse_error_not_retried_witness :
    TitleAnalysisStrategy.analyze (fun _ => Except.ok "no json here")
      (fun _ => Except.error (LLMErr.valueErr "Failed to parse JSON from LLM output"))
      (fun _ => 0) =
    (Except.error (LLMErr.valueErr "Failed to parse JSON from LLM output"), ⟨1, []⟩) :=
  title_parse_error_not_retried _ _ _ "no json here"
    "Failed to parse JSON from LLM output" rfl rfl

/-- C4: when every LLM completion call raises a transient (non-parse)
exception, `TitleAnalysisStrategy.analyze` makes exactly `max_retries`
(3) provider calls, sleeps between attempts for
`2 * 2 ^ attempt` seconds plus a `0.2`-scaled random jitter (so each
sleep lies in `[backoff, 1.2 * backoff)`), and after the final attempt
returns `(0.0, {estimated_relevance: 0.0, reasoning: "API error",
error: msg})` without raising. -/
theorem title_retry_exhaustion_falls_back (provider : Nat → Except LLMErr String)
    (parser : String → Except LLMErr LObj) (jitter : Nat → ℚ) (msg : String)
    (hp : ∀ n, provider n = Except.error (LLMErr.exc msg))
    (hj0 : ∀ n, 0 ≤ jitter n) (hj1 : ∀ n, jitter n < 1) :
    TitleAnalysisStrategy.analyze provider parser jitter =
      (Except.ok (0, titleFallback msg),
        ⟨3, [2 * 2 ^ 0 + 2 * 2 ^ 0 * mkRat 2 10 * jitter 0,
             2 * 2 ^ 1 + 2 * 2 ^ 1 * mkRat 2 10 * jitter 1]⟩) ∧
    2 * 2 ^ 0 ≤ 2 * 2 ^ 0 + 2 * 2 ^ 0 * mkRat 2 10 * jitter 0 ∧
    2 * 2 ^ 0 + 2 * 2 ^ 0 * mkRat 2 10 * jitter 0 < 2 * 2 ^ 0 + 2 * 2 ^ 0 * mkRat 2 10 ∧
    2 * 2 ^ 1 ≤ 2 * 2 ^ 1 + 2 * 2 ^ 1 * mkRat 2 10 * jitter 1 ∧
    2 * 2 ^ 1 + 2 * 2 ^ 1 * mkRat 2 10 * jitter 1 < 2 * 2 ^ 1 + 2 * 2 ^ 1 * mkRat 2 10 := by
  have hr : List.range TitleAnalysisStrategy.max_retries = [0, 1, 2] := by decide
  have hq : mkRat 2 10 = (2 : ℚ) / 10 := by
    rw [Rat.mkRat_eq_div]
    norm_num
  refine ⟨?_, ?_, ?_, ?_, ?_⟩
  · rw [TitleAnalysisStrategy.analyze, hr]
    simp [titleAttemptLoop, hp, TitleAnalysisStrategy.max_retries,
      TitleAnalysisStrategy.retry_delay]
  · rw [hq]
    nlinarith [hj0 0, hj1 0]
  · rw [hq]
    nlinarith [hj0 0, hj1 0]
  · rw [hq]
    nlinarith [hj0 1, hj1 1]
  · rw [hq]
    nlinarith [hj0 1, hj1 1]

/-- C4 witness: a provider that always fails with "API down" and zero
jitter produces three calls, sleeps of 2 and 4 seconds, and the
fallback result. -/
theorem title_retry_exhaustion_falls_back_witness :
    TitleAnalysisStrategy.analyze (fun _ => Except.error (LLMErr.exc "API down"))
      (fun _ => Except.error (LLMErr.exc "unused")) (fun _ => 0) =
      (Except.ok (0, titleFallback "API down"),
        ⟨3, [2 * 2 ^ 0 + 2 * 2 ^ 0 * mkRat 2 10 * 0,
             2 * 2 ^ 1 + 2 * 2 ^ 1 * mkRat 2 10 * 0]⟩) :=
  (title_retry_exhaustion_falls_back (fun _ => Except.error (LLMErr.exc "API down"))
    (fun _ => Except.error (LLMErr.exc "unused")) (fun _ => 0) "API down"
    (fun _ => rfl) (fun _ => le_refl 0) (fun _ => by norm_num)).1

/-- Helper: a fold of `Nat.max` stays below any upper bound of the list
and the accumulator. -/
theorem foldl_nat_max_le {m : Nat} :
    ∀ (l : List Nat) (a : Nat), (∀ x ∈ l, x ≤ m) → a ≤ m → l.foldl Nat.max a ≤ m
  | [], _, _, ha => ha
  | x :: l, a, h, ha =>
    foldl_nat_max_le l (Nat.max a x)
      (fun y hy => h y (List.mem_cons_of_mem _ hy))
      (Nat.max_le.mpr ⟨ha, h x (List.mem_cons_self _ _)⟩)

/-- Helper: the accumulator is below the fold of `Nat.max`. -/
theorem le_foldl_nat_max : ∀ (l : List Nat) (a : Nat), a ≤ l.foldl Nat.max a
  | [], _ => Nat.le_refl _
  | x :: l, a => Nat.le_trans (Nat.le_max_left a x) (le_foldl_nat_max l (Nat.max a x))

/-- Helper: every member is below the fold of `Nat.max`. -/
theorem mem_le_foldl_nat_max : ∀ (l : List Nat) (a x : Nat), x ∈ l → x ≤ l.foldl Nat.max a
  | y :: l, a, x, h => by
    rcases List.mem_cons.mp h with rfl | h
    · exact Nat.le_trans (Nat.le_max_right a x) (le_foldl_nat_max l (Nat.max a x))
    · exact mem_le_foldl_nat_max l (Nat.max a y) x h

/-- Helper: the fold of `Nat.max` over `0` computes the maximum of a
list once a member dominates the list. -/
theorem foldl_nat_max_eq (l : List Nat) (m : Nat) (hm : m ∈ l)
    (hle : ∀ x ∈ l, x ≤ m) : l.foldl Nat.max 0 = m :=
  Nat.le_antisymm (foldl_nat_max_le l 0 hle (Nat.zero_le m))
    (mem_le_foldl_nat_max l 0 m hm)

/-- Helper: sorting by timestamp descending puts a strictly dominating
last element at the head. -/
theorem head_orderByTsDesc_append :
    ∀ (l : List StateRow) (x : StateRow), (∀ r ∈ l, r.ts < x.ts) →
      (orderByTsDesc (l ++ [x])).head? = some x
  | [], x, _ => rfl
  | a :: l, x, h => by
    have ih := head_orderByTsDesc_append l x (fun r hr => h r (List.mem_cons_of_mem _ hr))
    rw [List.cons_append, orderByTsDesc, List.insertionSort]
    cases hs : orderByTsDesc (l ++ [x]) with
    | nil => rw [hs] at ih; exact absurd ih (by simp)
    | cons y t =>
      rw [hs] at ih
      have hy : y = x := by simpa using ih
      subst hy
      rw [orderByTsDesc] at hs
      rw [hs, List.orderedInsert,
        if_neg (by exact Nat.not_le.mpr (h a (List.mem_cons_self _ _)))]
      rfl

/-- C2: for a (job, user) pair whose state rows were appended at
strictly increasing timestamps, `get_current_job_state` returns the
last-appended row, and `get_jobs_by_state` (at the service defaults
limit 50, offset 0) includes the job under a state value exactly when
that value is the last-appended state — a job that advanced past a
state is excluded when querying the earlier state. -/
theorem latest_appended_state_wins (rows : List StateRow) (job : String) (user : Nat)
    (L : List Listing) (hne : rows ≠ [])
    (hpair : ∀ r ∈ rows, r.job_id = job ∧ r.user_id = user)
    (hchain : List.Chain' (· < ·) (rows.map (fun r => r.ts)))
    (hl : L.contains ⟨job⟩ = true) :
    get_current_job_state rows job user = some (rows.getLast hne) ∧
    ∀ st, job ∈ get_jobs_by_state L rows user st 50 0 ↔ st = (rows.getLast hne).state := by
  have hsplit : rows.dropLast ++ [rows.getLast hne] = rows :=
    List.dropLast_append_getLast hne
  haveI : IsTrans StateRow (fun a b => a.ts < b.ts) := ⟨fun _ _ _ => Nat.lt_trans⟩
  have hpw : rows.Pairwise (fun a b => a.ts < b.ts) := by
    rw [← List.chain'_iff_pairwise]
    exact (List.chain'_map _).mp hchain
  have hlt : ∀ r ∈ rows.dropLast, r.ts < (rows.getLast hne).ts := by
    rw [← hsplit] at hpw
    have := (List.pairwise_append.mp hpw).2.2
    exact fun r hr => this r hr _ (List.mem_singleton_self _)
  have hsplitmem : ∀ r ∈ rows, r ∈ rows.dropLast ∨ r = rows.getLast hne := by
    intro r hr
    rw [← hsplit] at hr
    rcases List.mem_append.mp hr with h | h
    · exact Or.inl h
    · exact Or.inr (List.mem_singleton.mp h)
  have hle : ∀ r ∈ rows, r.ts ≤ (rows.getLast hne).ts := by
    intro r hr
    rcases hsplitmem r hr with h | h
    · exact Nat.le_of_lt (hlt r h)
    · rw [h]
  have hfil : rowsForPair rows job user = rows := by
    rw [rowsForPair, List.filter_eq_self]
    intro r hr
    simp [(hpair r hr).1, (hpair r hr).2]
  have hmax : maxTsForPair rows job user = (rows.getLast hne).ts := by
    rw [maxTsForPair, hfil]
    exact foldl_nat_max_eq _ _
      (List.mem_map_of_mem _ (List.getLast_mem hne))
      (by intro x hx
          rcases List.mem_map.mp hx with ⟨r, hr, rfl⟩
          exact hle r hr)
  constructor
  · rw [get_current_job_state, hfil]
    have hhead := head_orderByTsDesc_append rows.dropLast (rows.getLast hne) hlt
    rw [hsplit] at hhead
    exact hhead
  · intro st
    rw [get_jobs_by_state]
    have hpred : ∀ r ∈ rows,
        (L.contains ⟨r.job_id⟩ && r.user_id == user && r.state == st &&
          r.ts == maxTsForPair rows r.job_id user) =
        ((r.state == st) && (r.ts == (rows.getLast hne).ts)) := by
      intro r hr
      rw [(hpair r hr).1, (hpair r hr).2, hmax, hl]
      simp [Bool.and_comm, Bool.and_assoc, Bool.and_left_comm]
    rw [List.filter_congr hpred]
    have hmatched : rows.filter
        (fun r => (r.state == st) && (r.ts == (rows.getLast hne).ts)) =
        if (rows.getLast hne).state = st then [rows.getLast hne] else [] := by
      have hstep : (rows.dropLast ++ [rows.getLast hne]).filter
          (fun r => (r.state == st) && (r.ts == (rows.getLast hne).ts)) =
          if (rows.getLast hne).state = st then [rows.getLast hne] else [] := ?_
      · rw [hsplit] at hstep
        exact hstep
      rw [List.filter_append]
      have hnil : rows.dropLast.filter
          (fun r => (r.state == st) && (r.ts == (rows.getLast hne).ts)) = [] := by
        rw [List.filter_eq_nil_iff]
        intro r hr
        simp only [Bool.and_eq_true, beq_iff_eq, not_and]
        intro _
        exact Nat.ne_of_lt (hlt r hr)
      rw [hnil, List.nil_append]
      by_cases h : (rows.getLast hne).state = st
      · rw [if_pos h]
        simp [List.filter, h]
      · rw [if_neg h]
        have hb : ((rows.getLast hne).state == st) = false := beq_eq_false_iff_ne.mpr h
        simp [List.filter, hb]
    rw [hmatched]
    by_cases h : (rows.getLast hne).state = st
    · rw [if_pos h]
      have : orderByTsDesc [rows.getLast hne] = [rows.getLast hne] := rfl
      rw [this]
      simp [(hpair _ (List.getLast_mem hne)).1, h.symm]
    · rw [if_neg h]
      simp [orderByTsDesc, List.insertionSort]
      exact fun hc => absurd hc.symm h

/-- C2 witness: appending `analyzed` at timestamp 1 then `relevant` at
timestamp 2 makes the current state `relevant`; querying `relevant`
returns the job and querying `analyzed` does not. -/
theorem latest_appended_state_wins_witness :
    get_current_job_state [⟨"j", 1, "analyzed", 1⟩, ⟨"j", 1, "relevant", 2⟩] "j" 1 =
      some ⟨"j", 1, "relevant", 2⟩ ∧
    "j" ∈ get_jobs_by_state [⟨"j"⟩]
      [⟨"j", 1, "analyzed", 1⟩, ⟨"j", 1, "relevant", 2⟩] 1 "relevant" 50 0 ∧
    "j" ∉ get_jobs_by_state [⟨"j"⟩]
      [⟨"j", 1, "analyzed", 1⟩, ⟨"j", 1, "relevant", 2⟩] 1 "analyzed" 50 0 := by
  have h := latest_appended_state_wins
    [⟨"j", 1, "analyzed", 1⟩, ⟨"j", 1, "relevant", 2⟩] "j" 1 [⟨"j"⟩]
    (by decide) (by decide) (by simp) (by decide)
  refine ⟨h.1, (h.2 "relevant").mpr rfl, fun hc => ?_⟩
  exact absurd ((h.2 "analyzed").mp hc) (by decide)

/-- Helper: `delete_job` with a user id keeps the listing row when some
reference to the job survives the user-scoped deletion. -/
theorem delete_job_user_kept_listing (db : DB) (j : String) (user : Nat)
    (h : refUsers (db.states.filter (fun r => !(r.job_id == j && r.user_id == user)))
      (db.analyses.filter (fun r => !(r.job_id == j && r.user_id == user))) j ≠ []) :
    delete_job db j (some user) =
      (⟨db.listings,
        db.states.filter (fun r => !(r.job_id == j && r.user_id == user)),
        db.analyses.filter (fun r => !(r.job_id == j && r.user_id == user))⟩, true) := by
  simp only [delete_job]
  split
  next hc => exact absurd (List.length_eq_zero.mp (beq_iff_eq.mp hc)) h
  next hc => rfl

/-- Helper: `delete_job` with a user id also deletes the listing row
when no reference to the job survives the user-scoped deletion. -/
theorem delete_job_user_dropped_listing (db : DB) (j : String) (user : Nat)
    (h : refUsers (db.states.filter (fun r => !(r.job_id == j && r.user_id == user)))
      (db.analyses.filter (fun r => !(r.job_id == j && r.user_id == user))) j = []) :
    delete_job db j (some user) =
      (⟨db.listings.filter (fun l => !(l.job_id == j)),
        db.states.filter (fun r => !(r.job_id == j && r.user_id == user)),
        db.analyses.filter (fun r => !(r.job_id == j && r.user_id == user))⟩, true) := by
  simp only [delete_job]
  split
  next hc => rfl
  next hc => exact absurd (by rw [h]; rfl) hc

/-- C3: with users A and B sharing a job, `delete_job(job, A)` returns
True, removes exactly A's state and analysis rows (B's rows and all
others survive unchanged), and keeps the shared listing row because B
still references the job; a subsequent `delete_job(job, B)` (when A and
B were the only referencing users) returns True and also deletes the
listing row. -/
theorem delete_job_multi_user_isolation (db : DB) (j : String) (A B : Nat)
    (hAB : A ≠ B)
    (hBstate : ∃ r, r ∈ db.states ∧ r.job_id = j ∧ r.user_id = B)
    (hAllS : ∀ r ∈ db.states, r.job_id = j → r.user_id = A ∨ r.user_id = B)
    (hAllA : ∀ r ∈ db.analyses, r.job_id = j → r.user_id = A ∨ r.user_id = B) :
    (delete_job db j (some A)).2 = true ∧
    (delete_job db j (some A)).1.listings = db.listings ∧
    (∀ r : StateRow, r ∈ (delete_job db j (some A)).1.states ↔
      r ∈ db.states ∧ ¬(r.job_id = j ∧ r.user_id = A)) ∧
    (∀ r : AnalysisRow, r ∈ (delete_job db j (some A)).1.analyses ↔
      r ∈ db.analyses ∧ ¬(r.job_id = j ∧ r.user_id = A)) ∧
    (delete_job (delete_job db j (some A)).1 j (some B)).2 = true ∧
    (delete_job (delete_job db j (some A)).1 j (some B)).1.listings =
      db.listings.filter (fun l => !(l.job_id == j)) := by
  obtain ⟨sB, hsB, hsBj, hsBu⟩ := hBstate
  have hBA : B ≠ A := fun hgoal => hAB hgoal.symm
  have hsB1 : sB ∈ db.states.filter (fun r => !(r.job_id == j && r.user_id == A)) := by
    rw [List.mem_filter]
    exact ⟨hsB, by simp [hsBj, hsBu, hBA]⟩
  have hBref : B ∈ refUsers
      (db.states.filter (fun r => !(r.job_id == j && r.user_id == A)))
      (db.analyses.filter (fun r => !(r.job_id == j && r.user_id == A))) j := by
    rw [refUsers, List.mem_dedup]
    refine List.mem_append_left _ (List.mem_map.mpr ⟨sB, ?_, hsBu⟩)
    rw [List.mem_filter]
    exact ⟨hsB1, by simp [hsBj]⟩
  have hdel1 := delete_job_user_kept_listing db j A (List.ne_nil_of_mem hBref)
  rw [hdel1]
  refine ⟨rfl, rfl, ?_, ?_, ?_⟩
  · intro r
    rw [List.mem_filter]
    simp [not_and, and_congr_right_iff]
    tauto
  · intro r
    rw [List.mem_filter]
    simp [not_and, and_congr_right_iff]
    tauto
  · have hnoref : refUsers
        ((db.states.filter (fun r => !(r.job_id == j && r.user_id == A))).filter
          (fun r => !(r.job_id == j && r.user_id == B)))
        ((db.analyses.filter (fun r => !(r.job_id == j && r.user_id == A))).filter
          (fun r => !(r.job_id == j && r.user_id == B))) j = [] := by
      rw [refUsers]
      have hs2 : ((db.states.filter (fun r => !(r.job_id == j && r.user_id == A))).filter
          (fun r => !(r.job_id == j && r.user_id == B))).filter
          (fun r => r.job_id == j) = [] := by
        rw [List.filter_eq_nil_iff]
        intro r hr
        rw [List.mem_filter] at hr
        obtain ⟨hr1, hrB⟩ := hr
        rw [List.mem_filter] at hr1
        obtain ⟨hr0, hrA⟩ := hr1
        simp only [Bool.not_eq_true', Bool.and_eq_false_iff, beq_eq_false_iff_ne,
          ne_eq] at hrA hrB
        simp only [beq_iff_eq]
        intro hj
        rcases hAllS r hr0 hj with hA | hB
        · rcases hrA with h | h
          · exact h hj
          · exact h hA
        · rcases hrB with h | h
          · exact h hj
          · exact h hB
      have ha2 : ((db.analyses.filter (fun r => !(r.job_id == j && r.user_id == A))).filter
          (fun r => !(r.job_id == j && r.user_id == B))).filter
          (fun r => r.job_id == j) = [] := by
        rw [List.filter_eq_nil_iff]
        intro r hr
        rw [List.mem_filter] at hr
        obtain ⟨hr1, hrB⟩ := hr
        rw [List.mem_filter] at hr1
        obtain ⟨hr0, hrA⟩ := hr1
        simp only [Bool.not_eq_true', Bool.and_eq_false_iff, beq_eq_false_iff_ne,
          ne_eq] at hrA hrB
        simp only [beq_iff_eq]
        intro hj
        rcases hAllA r hr0 hj with hA | hB
        · rcases hrA with h | h
          · exact h hj
          · exact h hA
        · rcases hrB with h | h
          · exact h hj
          · exact h hB
      rw [hs2, ha2]
      rfl
    have hdel2 := delete_job_user_dropped_listing
      ⟨db.listings,
        db.states.filter (fun r => !(r.job_id == j && r.user_id == A)),
        db.analyses.filter (fun r => !(r.job_id == j && r.user_id == A))⟩ j B hnoref
    constructor
    · rw [hdel2]
    · rw [hdel2]

/-- C3 witness: a shared job with one state and one analysis row per
user — deleting for user 1 keeps the listing and user 2's rows while
removing user 1's state row; deleting for user 2 afterwards empties the
listing table. -/
theorem delete_job_multi_user_isolation_witness :
    (delete_job ⟨[⟨"j"⟩], [⟨"j", 1, "viewed", 1⟩, ⟨"j", 2, "saved", 2⟩],
        [⟨"j", 1, mkRat 9 10⟩, ⟨"j", 2, mkRat 8 10⟩]⟩ "j" (some 1)).2 = true ∧
    (delete_job ⟨[⟨"j"⟩], [⟨"j", 1, "viewed", 1⟩, ⟨"j", 2, "saved", 2⟩],
        [⟨"j", 1, mkRat 9 10⟩, ⟨"j", 2, mkRat 8 10⟩]⟩ "j" (some 1)).1.listings = [⟨"j"⟩] ∧
    ⟨"j", 2, "saved", 2⟩ ∈ (delete_job ⟨[⟨"j"⟩], [⟨"j", 1, "viewed", 1⟩, ⟨"j", 2, "saved", 2⟩],
        [⟨"j", 1, mkRat 9 10⟩, ⟨"j", 2, mkRat 8 10⟩]⟩ "j" (some 1)).1.states ∧
    ⟨"j", 1, "viewed", 1⟩ ∉ (delete_job ⟨[⟨"j"⟩], [⟨"j", 1, "viewed", 1⟩, ⟨"j", 2, "saved", 2⟩],
        [⟨"j", 1, mkRat 9 10⟩, ⟨"j", 2, mkRat 8 10⟩]⟩ "j" (some 1)).1.states ∧
    ⟨"j", 2, mkRat 8 10⟩ ∈ (delete_job ⟨[⟨"j"⟩], [⟨"j", 1, "viewed", 1⟩, ⟨"j", 2, "saved", 2⟩],
        [⟨"j", 1, mkRat 9 10⟩, ⟨"j", 2, mkRat 8 10⟩]⟩ "j" (some 1)).1.analyses ∧
    (delete_job (delete_job ⟨[⟨"j"⟩], [⟨"j", 1, "viewed", 1⟩, ⟨"j", 2, "saved", 2⟩],
        [⟨"j", 1, mkRat 9 10⟩, ⟨"j", 2, mkRat 8 10⟩]⟩ "j" (some 1)).1 "j" (some 2)).2 = true ∧
    (delete_job (delete_job ⟨[⟨"j"⟩], [⟨"j", 1, "viewed", 1⟩, ⟨"j", 2, "saved", 2⟩],
        [⟨"j", 1, mkRat 9 10⟩, ⟨"j", 2, mkRat 8 10⟩]⟩ "j" (some 1)).1 "j" (some 2)).1.listings = [] := by
  have h := delete_job_multi_user_isolation
    ⟨[⟨"j"⟩], [⟨"j", 1, "viewed", 1⟩, ⟨"j", 2, "saved", 2⟩],
      [⟨"j", 1, mkRat 9 10⟩, ⟨"j", 2, mkRat 8 10⟩]⟩ "j" 1 2
    (by decide) ⟨⟨"j", 2, "saved", 2⟩, by decide, rfl, rfl⟩ (by decide) (by decide)
  refine ⟨h.1, h.2.1, (h.2.2.1 _).mpr ⟨by decide, by decide⟩,
    fun hc => ((h.2.2.1 _).mp hc).2 ⟨rfl, rfl⟩,
    (h.2.2.2.1 _).mpr ⟨by decide, by decide⟩, h.2.2.2.2.1, ?_⟩
  rw [h.2.2.2.2.2]
  rfl
